import Mathlib

/-!
Verification of the start/stop lifecycle orchestrator in `src/startstop.go`.

The program is embedded shallowly with a discrete clock counted in seconds
(every sleep in the source is an integer number of seconds):

* `MockService` mirrors the Go struct of the same name (`name`,
  `fakeDuration`, `status`), and `New` its constructor.
* A bounded call races the operation's duration against the context
  deadline (`select` on `ctx.Done()` vs the completion channel).  When both
  would fire at the same second the winner is genuinely nondeterministic in
  the Go runtime, so the model takes an `oracle : Nat → Bool` deciding every
  such tie; theorems quantify over all oracles.
* `MockService.StartCall` embeds `MockService.Start`: on success it marks
  the service running and returns at `t0 + fakeDuration`; on a timeout it
  returns the timeout error at `t0 + lim` while the background goroutine is
  left pending and will set `status` at absolute time `t0 + fakeDuration`
  (field `pendingAt`) — the operation is not cancelled.
* `MockService.StopCall` embeds `MockService.Stop`: it first reads the
  (possibly concurrently mutated) `status`; when the service never reached
  running it is a no-op returning success immediately, otherwise it races
  the stop sleep of `fakeDuration + 1` seconds against the stop deadline.
* `startPhase` embeds the first `for` loop of `main` (forward start calls,
  `break` on the first error after setting the global status and raising
  SIGTERM against the process itself), `stopGo` the second `for` loop
  (stop calls over the whole list in reverse, never breaking), and
  `mainRun` glues them together around the `<-sysExit` receive, producing
  the event trace and the `os.Exit` code.
-/

structure MockService where
  name : String
  fakeDuration : Nat
  status : Bool
deriving DecidableEq

/-- Constructor `New` from the source: fresh service, not yet started. -/
def New (name : String) (fakeDuration : Nat) : MockService :=
  { name := name, fakeDuration := fakeDuration, status := false }

/-- Outcome of the `select` between the completion channel and `ctx.Done()`. -/
inductive RaceOutcome
  | done
  | timedOut
deriving DecidableEq

/-- Race a `dur`-second operation against a `lim`-second deadline; the
`tie` bit resolves the nondeterministic case `dur = lim`. -/
def race (dur lim : Nat) (tie : Bool) : RaceOutcome :=
  if dur < lim then RaceOutcome.done
  else if lim < dur then RaceOutcome.timedOut
  else if tie then RaceOutcome.done else RaceOutcome.timedOut

/-- `context.WithTimeout(..., time.Second*3)` used for every start call. -/
def startTimeoutSec : Nat := 3

/-- `context.WithTimeout(..., time.Second*2)` used for every stop call. -/
def stopTimeoutSec : Nat := 2

/-- Error returned by `MockService.Start` when the context expires first. -/
def startErrMsg (ms : MockService) : String :=
  "time limit exceeded while starting service " ++ ms.name

/-- Error returned by `MockService.Stop` when the context expires first. -/
def stopErrMsg (ms : MockService) : String :=
  "time limit exceeded while stopping service " ++ ms.name

structure StartCallOut where
  err : Option String
  svc : MockService
  pendingAt : Option Nat
  retAt : Nat
deriving DecidableEq

/-- One call to `MockService.Start` beginning at absolute time `t0` under a
deadline of `lim` seconds.  The goroutine sleeps `fakeDuration` seconds and
then sets `status = true`; the caller returns at the earlier of completion
and deadline.  On a timeout the goroutine keeps running, so the mutation is
still outstanding at absolute time `t0 + fakeDuration` (`pendingAt`). -/
def MockService.StartCall (ms : MockService) (t0 lim : Nat) (tie : Bool) : StartCallOut :=
  match race ms.fakeDuration lim tie with
  | RaceOutcome.done =>
      { err := none, svc := { ms with status := true }, pendingAt := none,
        retAt := t0 + ms.fakeDuration }
  | RaceOutcome.timedOut =>
      { err := some (startErrMsg ms), svc := ms,
        pendingAt := some (t0 + ms.fakeDuration), retAt := t0 + lim }

/-- Has the background mutation of an abandoned, timed-out start goroutine
already set `status` by the time it is read at time `t`?  Equality of the
two instants is again a scheduler race, resolved by `tiePending`. -/
def pendingFired (pendingAt : Option Nat) (t : Nat) (tiePending : Bool) : Bool :=
  match pendingAt with
  | none => false
  | some tMut => decide (tMut < t) || (decide (tMut = t) && tiePending)

structure StopCallOut where
  err : Option String
  retAt : Nat
  wasRunning : Bool
deriving DecidableEq

/-- One call to `MockService.Stop` beginning at absolute time `t0` under a
deadline of `lim` seconds.  If the service was never observed running the
call is a no-op returning `nil` at once; otherwise the goroutine sleeps
`fakeDuration + 1` seconds and the caller races it against the deadline. -/
def MockService.StopCall (ms : MockService) (pendingAt : Option Nat) (t0 lim : Nat)
    (tiePending tie : Bool) : StopCallOut :=
  if ms.status || pendingFired pendingAt t0 tiePending then
    match race (ms.fakeDuration + 1) lim tie with
    | RaceOutcome.done =>
        { err := none, retAt := t0 + (ms.fakeDuration + 1), wasRunning := true }
    | RaceOutcome.timedOut =>
        { err := some (stopErrMsg ms), retAt := t0 + lim, wasRunning := true }
  else { err := none, retAt := t0, wasRunning := false }

/-- A service together with the not-yet-landed mutation of an abandoned
start goroutine, if any. -/
structure SvcState where
  svc : MockService
  pendingAt : Option Nat
deriving DecidableEq

/-- Observable steps of one run of `main`.  `startCall`/`stopCall` record
the service index, the absolute second the call began, the absolute
deadline of the context created for that call, and whether the call
returned `nil`; `stopCall` also records whether the service was observed
running (a `false` means the no-op branch).  `awaitSignal` is the
`<-sysExit` receive; `selfSignaled` tells whether the SIGTERM raised by
`generateSIGTERM` (startup failure) was already pending. -/
inductive Event
  | startCall (i t0 dl : Nat) (ok : Bool)
  | awaitSignal (selfSignaled : Bool)
  | stopCall (i t0 dl : Nat) (wasRunning ok : Bool)
deriving DecidableEq

structure StartOut where
  svcs : List SvcState
  now : Nat
  cIdx : Nat
  failed : Bool
  events : List Event
deriving DecidableEq

/-- The first `for` loop of `main`: start the services in declared order,
each under a fresh 3-second context; on the first error set the global
status, raise SIGTERM and `break`, leaving the remaining services
untouched.  `i` is the index of the first service of `l` in the full list,
`now` the clock, `cIdx` the next tie-oracle slot. -/
def startPhase (oracle : Nat → Bool) : Nat → Nat → Nat → List SvcState → StartOut
  | _, now, cIdx, [] =>
      { svcs := [], now := now, cIdx := cIdx, failed := false, events := [] }
  | i, now, cIdx, s :: rest =>
      let c := s.svc.StartCall now startTimeoutSec (oracle cIdx)
      if c.err.isNone then
        let r := startPhase oracle (i + 1) c.retAt (cIdx + 1) rest
        { svcs := { svc := c.svc, pendingAt := c.pendingAt } :: r.svcs,
          now := r.now, cIdx := r.cIdx, failed := r.failed,
          events := Event.startCall i now (now + startTimeoutSec) true :: r.events }
      else
        { svcs := { svc := c.svc, pendingAt := c.pendingAt } :: rest,
          now := c.retAt, cIdx := cIdx + 1, failed := true,
          events := [Event.startCall i now (now + startTimeoutSec) false] }

structure StopOut where
  now : Nat
  cIdx : Nat
  status : Nat
  events : List Event
deriving DecidableEq

/-- The second `for` loop of `main`: stop calls over the whole service list
in reverse declaration order, each under a fresh 2-second context; an error
is logged and sets the global status but iteration continues.  The list
argument is the reversed service list, so the head's original index is
`rest.length`. -/
def stopGo (oracle : Nat → Bool) : Nat → Nat → Nat → List SvcState → StopOut
  | now, cIdx, status, [] =>
      { now := now, cIdx := cIdx, status := status, events := [] }
  | now, cIdx, status, s :: rest =>
      let c := s.svc.StopCall s.pendingAt now stopTimeoutSec (oracle cIdx) (oracle (cIdx + 1))
      let status1 := if c.err.isSome then 1 else status
      let r := stopGo oracle c.retAt (cIdx + 2) status1 rest
      { now := r.now, cIdx := r.cIdx, status := r.status,
        events := Event.stopCall rest.length now (now + stopTimeoutSec)
          c.wasRunning c.err.isNone :: r.events }

/-- The services handed to the orchestrator, wrapped with no pending
background mutation. -/
def initStates (services : List MockService) : List SvcState :=
  services.map fun ms => { svc := ms, pendingAt := none }

/-- The startup phase of `main`, from clock 0. -/
def mainStart (oracle : Nat → Bool) (services : List MockService) : StartOut :=
  startPhase oracle 0 0 0 (initStates services)

/-- The shutdown phase of `main`.  When startup failed the self-raised
SIGTERM is already pending, so `<-sysExit` returns at once and the global
status is already 1; otherwise the receive blocks `extWait` seconds for the
external signal and the status is still 0. -/
def mainStop (oracle : Nat → Bool) (extWait : Nat) (services : List MockService) : StopOut :=
  let sp := mainStart oracle services
  stopGo oracle (if sp.failed then sp.now else sp.now + extWait) sp.cIdx
    (if sp.failed then 1 else 0) sp.svcs.reverse

structure RunOut where
  exitCode : Nat
  trace : List Event
deriving DecidableEq

/-- One complete run of `main` over `services`, under tie oracle `oracle`,
with the external termination signal arriving `extWait` seconds after
startup completes (only relevant when startup succeeded).  `exitCode` is
the argument of the final `os.Exit`. -/
def mainRun (oracle : Nat → Bool) (extWait : Nat) (services : List MockService) : RunOut :=
  { exitCode := (mainStop oracle extWait services).status,
    trace := (mainStart oracle services).events ++
      Event.awaitSignal (mainStart oracle services).failed ::
        (mainStop oracle extWait services).events }

/-- The hard-coded service list of `main`. -/
def servicesMain : List MockService := [New "A" 1, New "B" 2, New "C" 1]

/-- A concrete tie oracle (always lets the deadline win). -/
def oracleFalse : Nat → Bool := fun _ => false

/-- Indices of the start calls of a trace, in order. -/
def startIdxList (tr : List Event) : List Nat :=
  tr.filterMap fun e =>
    match e with
    | Event.startCall i _ _ _ => some i
    | _ => none

/-- Indices of the stop calls of a trace, in order. -/
def stopIdxList (tr : List Event) : List Nat :=
  tr.filterMap fun e =>
    match e with
    | Event.stopCall i _ _ _ _ => some i
    | _ => none

/-- Indices of the failing stop calls of a trace, in order. -/
def stopErrIdxList (tr : List Event) : List Nat :=
  tr.filterMap fun e =>
    match e with
    | Event.stopCall i _ _ _ false => some i
    | _ => none

/-- The `selfSignaled` bits of the signal-await steps of a trace. -/
def awaitList (tr : List Event) : List Bool :=
  tr.filterMap fun e =>
    match e with
    | Event.awaitSignal b => some b
    | _ => none

/-- Events that set the global status to 1 (a failed start or stop call). -/
def isErrEvent : Event → Bool
  | Event.startCall _ _ _ ok => !ok
  | Event.stopCall _ _ _ _ ok => !ok
  | Event.awaitSignal _ => false

/-- The context deadline of a call is its begin instant plus the fixed
configured duration of its phase. -/
def deadlineFresh : Event → Bool
  | Event.startCall _ t0 dl _ => dl == t0 + startTimeoutSec
  | Event.stopCall _ t0 dl _ _ => dl == t0 + stopTimeoutSec
  | Event.awaitSignal _ => true

/-! ### Small rewriting lemmas for the trace projections -/

@[simp] theorem startIdxList_nil : startIdxList [] = [] := rfl

@[simp] theorem startIdxList_cons_start (i t0 dl : Nat) (ok : Bool) (tr : List Event) :
    startIdxList (Event.startCall i t0 dl ok :: tr) = i :: startIdxList tr := rfl

@[simp] theorem startIdxList_cons_await (b : Bool) (tr : List Event) :
    startIdxList (Event.awaitSignal b :: tr) = startIdxList tr := rfl

@[simp] theorem startIdxList_cons_stop (i t0 dl : Nat) (w ok : Bool) (tr : List Event) :
    startIdxList (Event.stopCall i t0 dl w ok :: tr) = startIdxList tr := rfl

@[simp] theorem startIdxList_append (tr1 tr2 : List Event) :
    startIdxList (tr1 ++ tr2) = startIdxList tr1 ++ startIdxList tr2 := by
  simp [startIdxList, List.filterMap_append]

@[simp] theorem stopIdxList_nil : stopIdxList [] = [] := rfl

@[simp] theorem stopIdxList_cons_start (i t0 dl : Nat) (ok : Bool) (tr : List Event) :
    stopIdxList (Event.startCall i t0 dl ok :: tr) = stopIdxList tr := rfl

@[simp] theorem stopIdxList_cons_await (b : Bool) (tr : List Event) :
    stopIdxList (Event.awaitSignal b :: tr) = stopIdxList tr := rfl

@[simp] theorem stopIdxList_cons_stop (i t0 dl : Nat) (w ok : Bool) (tr : List Event) :
    stopIdxList (Event.stopCall i t0 dl w ok :: tr) = i :: stopIdxList tr := rfl

@[simp] theorem stopIdxList_append (tr1 tr2 : List Event) :
    stopIdxList (tr1 ++ tr2) = stopIdxList tr1 ++ stopIdxList tr2 := by
  simp [stopIdxList, List.filterMap_append]

@[simp] theorem awaitList_nil : awaitList [] = [] := rfl

@[simp] theorem awaitList_cons_start (i t0 dl : Nat) (ok : Bool) (tr : List Event) :
    awaitList (Event.startCall i t0 dl ok :: tr) = awaitList tr := rfl

@[simp] theorem awaitList_cons_await (b : Bool) (tr : List Event) :
    awaitList (Event.awaitSignal b :: tr) = b :: awaitList tr := rfl

@[simp] theorem awaitList_cons_stop (i t0 dl : Nat) (w ok : Bool) (tr : List Event) :
    awaitList (Event.stopCall i t0 dl w ok :: tr) = awaitList tr := rfl

@[simp] theorem awaitList_append (tr1 tr2 : List Event) :
    awaitList (tr1 ++ tr2) = awaitList tr1 ++ awaitList tr2 := by
  simp [awaitList, List.filterMap_append]

@[simp] theorem stopErrIdxList_nil : stopErrIdxList [] = [] := rfl

@[simp] theorem stopErrIdxList_cons_start (i t0 dl : Nat) (ok : Bool) (tr : List Event) :
    stopErrIdxList (Event.startCall i t0 dl ok :: tr) = stopErrIdxList tr := rfl

@[simp] theorem stopErrIdxList_cons_await (b : Bool) (tr : List Event) :
    stopErrIdxList (Event.awaitSignal b :: tr) = stopErrIdxList tr := rfl

@[simp] theorem stopErrIdxList_cons_stop_ok (i t0 dl : Nat) (w : Bool) (tr : List Event) :
    stopErrIdxList (Event.stopCall i t0 dl w true :: tr) = stopErrIdxList tr := rfl

@[simp] theorem stopErrIdxList_cons_stop_err (i t0 dl : Nat) (w : Bool) (tr : List Event) :
    stopErrIdxList (Event.stopCall i t0 dl w false :: tr) = i :: stopErrIdxList tr := rfl

@[simp] theorem stopErrIdxList_append (tr1 tr2 : List Event) :
    stopErrIdxList (tr1 ++ tr2) = stopErrIdxList tr1 ++ stopErrIdxList tr2 := by
  simp [stopErrIdxList, List.filterMap_append]

/-! ### Structure of the startup sequencer's output -/

theorem stopIdxList_startPhase (oracle : Nat → Bool) (l : List SvcState) :
    ∀ i now cIdx, stopIdxList (startPhase oracle i now cIdx l).events = [] := by
  induction l with
  | nil => intro i now cIdx; simp [startPhase]
  | cons s rest ih =>
    intro i now cIdx
    cases hr : race s.svc.fakeDuration startTimeoutSec (oracle cIdx) with
    | done => simp [startPhase, MockService.StartCall, hr, ih]
    | timedOut => simp [startPhase, MockService.StartCall, hr]

theorem awaitList_startPhase (oracle : Nat → Bool) (l : List SvcState) :
    ∀ i now cIdx, awaitList (startPhase oracle i now cIdx l).events = [] := by
  induction l with
  | nil => intro i now cIdx; simp [startPhase]
  | cons s rest ih =>
    intro i now cIdx
    cases hr : race s.svc.fakeDuration startTimeoutSec (oracle cIdx) with
    | done => simp [startPhase, MockService.StartCall, hr, ih]
    | timedOut => simp [startPhase, MockService.StartCall, hr]

theorem startIdxList_startPhase (oracle : Nat → Bool) (l : List SvcState) :
    ∀ i now cIdx,
      startIdxList (startPhase oracle i now cIdx l).events =
        List.range' i (startPhase oracle i now cIdx l).events.length := by
  induction l with
  | nil => intro i now cIdx; simp [startPhase]
  | cons s rest ih =>
    intro i now cIdx
    cases hr : race s.svc.fakeDuration startTimeoutSec (oracle cIdx) with
    | done =>
      simp [startPhase, MockService.StartCall, hr, ih, List.range'_succ]
    | timedOut =>
      simp [startPhase, MockService.StartCall, hr, List.range'_succ]

theorem startPhase_failed_eq_any (oracle : Nat → Bool) (l : List SvcState) :
    ∀ i now cIdx,
      (startPhase oracle i now cIdx l).failed =
        (startPhase oracle i now cIdx l).events.any isErrEvent := by
  induction l with
  | nil => intro i now cIdx; simp [startPhase]
  | cons s rest ih =>
    intro i now cIdx
    cases hr : race s.svc.fakeDuration startTimeoutSec (oracle cIdx) with
    | done => simp [startPhase, MockService.StartCall, hr, ih, isErrEvent]
    | timedOut => simp [startPhase, MockService.StartCall, hr, isErrEvent]

theorem startPhase_length_of_ok (oracle : Nat → Bool) (l : List SvcState) :
    ∀ i now cIdx, (startPhase oracle i now cIdx l).failed = false →
      (startPhase oracle i now cIdx l).events.length = l.length := by
  induction l with
  | nil => intro i now cIdx _; simp [startPhase]
  | cons s rest ih =>
    intro i now cIdx hfail
    cases hr : race s.svc.fakeDuration startTimeoutSec (oracle cIdx) with
    | done =>
      simp [startPhase, MockService.StartCall, hr] at hfail ⊢
      exact ih _ _ _ hfail
    | timedOut =>
      simp [startPhase, MockService.StartCall, hr] at hfail

theorem startPhase_svcs_length (oracle : Nat → Bool) (l : List SvcState) :
    ∀ i now cIdx, (startPhase oracle i now cIdx l).svcs.length = l.length := by
  induction l with
  | nil => intro i now cIdx; simp [startPhase]
  | cons s rest ih =>
    intro i now cIdx
    cases hr : race s.svc.fakeDuration startTimeoutSec (oracle cIdx) with
    | done => simp [startPhase, MockService.StartCall, hr, ih]
    | timedOut => simp [startPhase, MockService.StartCall, hr]

theorem startPhase_errMem (oracle : Nat → Bool) (l : List SvcState) :
    ∀ i now cIdx k t0 dl,
      Event.startCall k t0 dl false ∈ (startPhase oracle i now cIdx l).events →
      (startPhase oracle i now cIdx l).failed = true ∧
        (startPhase oracle i now cIdx l).events.length + i = k + 1 ∧ i ≤ k := by
  induction l with
  | nil => intro i now cIdx k t0 dl h; simp [startPhase] at h
  | cons s rest ih =>
    intro i now cIdx k t0 dl h
    cases hr : race s.svc.fakeDuration startTimeoutSec (oracle cIdx) with
    | done =>
      simp [startPhase, MockService.StartCall, hr] at h ⊢
      rcases ih _ _ _ _ _ _ h with ⟨h1, h2, h3⟩
      refine ⟨h1, by omega, by omega⟩
    | timedOut =>
      simp [startPhase, MockService.StartCall, hr] at h ⊢
      omega

theorem startPhase_fresh (oracle : Nat → Bool) (l : List SvcState) :
    ∀ i now cIdx, (startPhase oracle i now cIdx l).events.all deadlineFresh = true := by
  induction l with
  | nil => intro i now cIdx; simp [startPhase]
  | cons s rest ih =>
    intro i now cIdx
    cases hr : race s.svc.fakeDuration startTimeoutSec (oracle cIdx) with
    | done => simp [startPhase, MockService.StartCall, hr, ih, deadlineFresh]
    | timedOut => simp [startPhase, MockService.StartCall, hr, deadlineFresh]

/-! ### Structure of the shutdown sequencer's output -/

theorem startIdxList_stopGo (oracle : Nat → Bool) (l : List SvcState) :
    ∀ now cIdx status, startIdxList (stopGo oracle now cIdx status l).events = [] := by
  induction l with
  | nil => intro now cIdx status; simp [stopGo]
  | cons s rest ih =>
    intro now cIdx status
    simp [stopGo, ih]

theorem awaitList_stopGo (oracle : Nat → Bool) (l : List SvcState) :
    ∀ now cIdx status, awaitList (stopGo oracle now cIdx status l).events = [] := by
  induction l with
  | nil => intro now cIdx status; simp [stopGo]
  | cons s rest ih =>
    intro now cIdx status
    simp [stopGo, ih]

theorem stopIdxList_stopGo (oracle : Nat → Bool) (l : List SvcState) :
    ∀ now cIdx status,
      stopIdxList (stopGo oracle now cIdx status l).events = (List.range l.length).reverse := by
  induction l with
  | nil => intro now cIdx status; simp [stopGo]
  | cons s rest ih =>
    intro now cIdx status
    simp [stopGo, ih, List.range_succ]

theorem stopGo_status_eq (oracle : Nat → Bool) (l : List SvcState) :
    ∀ now cIdx status,
      (stopGo oracle now cIdx status l).status =
        (if (stopGo oracle now cIdx status l).events.any isErrEvent then 1 else status) := by
  induction l with
  | nil => intro now cIdx status; simp [stopGo]
  | cons s rest ih =>
    intro now cIdx status
    cases hrun : (s.svc.status || pendingFired s.pendingAt now (oracle cIdx)) with
    | false => simp [stopGo, MockService.StopCall, hrun, isErrEvent, ih]
    | true =>
      cases hr : race (s.svc.fakeDuration + 1) stopTimeoutSec (oracle (cIdx + 1)) with
      | done => simp [stopGo, MockService.StopCall, hrun, hr, isErrEvent, ih]
      | timedOut => simp [stopGo, MockService.StopCall, hrun, hr, isErrEvent, ih]

theorem stopGo_noRun_ok (oracle : Nat → Bool) (l : List SvcState) :
    ∀ now cIdx status i t0 dl,
      Event.stopCall i t0 dl false false ∉ (stopGo oracle now cIdx status l).events := by
  induction l with
  | nil => intro now cIdx status i t0 dl; simp [stopGo]
  | cons s rest ih =>
    intro now cIdx status i t0 dl
    cases hrun : (s.svc.status || pendingFired s.pendingAt now (oracle cIdx)) with
    | false => simp [stopGo, MockService.StopCall, hrun, ih]
    | true =>
      cases hr : race (s.svc.fakeDuration + 1) stopTimeoutSec (oracle (cIdx + 1)) with
      | done => simp [stopGo, MockService.StopCall, hrun, hr, ih]
      | timedOut => simp [stopGo, MockService.StopCall, hrun, hr, ih]

theorem stopGo_fresh (oracle : Nat → Bool) (l : List SvcState) :
    ∀ now cIdx status, (stopGo oracle now cIdx status l).events.all deadlineFresh = true := by
  induction l with
  | nil => intro now cIdx status; simp [stopGo]
  | cons s rest ih =>
    intro now cIdx status
    simp [stopGo, deadlineFresh, ih]

/-! ### Composition lemmas about a whole run of `main` -/

theorem mainStart_failed_eq (oracle : Nat → Bool) (services : List MockService) :
    (mainStart oracle services).failed =
      (mainStart oracle services).events.any isErrEvent := by
  simp only [mainStart]
  exact startPhase_failed_eq_any oracle (initStates services) 0 0 0

theorem mainStop_status_eq (oracle : Nat → Bool) (extWait : Nat) (services : List MockService) :
    (mainStop oracle extWait services).status =
      (if (mainStop oracle extWait services).events.any isErrEvent then 1
       else if (mainStart oracle services).failed then 1 else 0) := by
  simp only [mainStop]
  exact stopGo_status_eq oracle _ _ _ _

theorem startIdxList_mainRun (oracle : Nat → Bool) (extWait : Nat)
    (services : List MockService) :
    startIdxList (mainRun oracle extWait services).trace =
      List.range' 0 (mainStart oracle services).events.length := by
  simp [mainRun, mainStop, mainStart, startIdxList_startPhase, startIdxList_stopGo]

theorem stopIdxList_mainRun (oracle : Nat → Bool) (extWait : Nat)
    (services : List MockService) :
    stopIdxList (mainRun oracle extWait services).trace =
      (List.range services.length).reverse := by
  simp [mainRun, mainStop, mainStart, stopIdxList_startPhase, stopIdxList_stopGo,
    startPhase_svcs_length, initStates]

theorem awaitList_mainRun (oracle : Nat → Bool) (extWait : Nat)
    (services : List MockService) :
    awaitList (mainRun oracle extWait services).trace =
      [(mainStart oracle services).failed] := by
  simp [mainRun, mainStop, awaitList_stopGo]
  simp [mainStart, awaitList_startPhase]

theorem mainRun_exit_eq (oracle : Nat → Bool) (extWait : Nat) (services : List MockService) :
    (mainRun oracle extWait services).exitCode =
      (if (mainRun oracle extWait services).trace.any isErrEvent then 1 else 0) := by
  have h1 := mainStop_status_eq oracle extWait services
  have h2 := mainStart_failed_eq oracle services
  simp only [mainRun, List.any_append, List.any_cons, isErrEvent]
  rw [h1, h2]
  cases ha : (mainStart oracle services).events.any isErrEvent <;>
    cases hb : (mainStop oracle extWait services).events.any isErrEvent <;> simp

/-! ### Shared membership helpers -/

theorem mem_startIdxList_of_mem {tr : List Event} {i t0 dl : Nat} {ok : Bool}
    (h : Event.startCall i t0 dl ok ∈ tr) : i ∈ startIdxList tr :=
  List.mem_filterMap.2 ⟨_, h, rfl⟩

theorem mem_stopIdxList_of_mem {tr : List Event} {i t0 dl : Nat} {w ok : Bool}
    (h : Event.stopCall i t0 dl w ok ∈ tr) : i ∈ stopIdxList tr :=
  List.mem_filterMap.2 ⟨_, h, rfl⟩

theorem stopCall_mem_mainStop {oracle : Nat → Bool} {extWait : Nat}
    {services : List MockService} {i t0 dl : Nat} {w ok : Bool}
    (h : Event.stopCall i t0 dl w ok ∈ (mainRun oracle extWait services).trace) :
    Event.stopCall i t0 dl w ok ∈ (mainStop oracle extWait services).events := by
  simp only [mainRun, List.mem_append, List.mem_cons] at h
  rcases h with h | h | h
  · exfalso
    have h0 : stopIdxList (mainStart oracle services).events = [] := by
      simp [mainStart, stopIdxList_startPhase]
    have hi := mem_stopIdxList_of_mem h
    rw [h0] at hi
    simp at hi
  · exact absurd h (by simp)
  · exact h

theorem mainRun_startFail_core (oracle : Nat → Bool) (extWait : Nat)
    (services : List MockService) (k t0 dl : Nat)
    (h : Event.startCall k t0 dl false ∈ (mainRun oracle extWait services).trace) :
    (mainStart oracle services).failed = true ∧
    (mainStart oracle services).events.length = k + 1 ∧
    (mainRun oracle extWait services).exitCode = 1 := by
  have hsp : Event.startCall k t0 dl false ∈ (mainStart oracle services).events := by
    simp only [mainRun, List.mem_append, List.mem_cons] at h
    rcases h with h | h | h
    · exact h
    · exact absurd h (by simp)
    · exfalso
      have h0 : startIdxList (mainStop oracle extWait services).events = [] := by
        simp [mainStop, startIdxList_stopGo]
      have hi := mem_startIdxList_of_mem h
      rw [h0] at hi
      simp at hi
  obtain ⟨hfail, hlen, -⟩ :=
    startPhase_errMem oracle (initStates services) 0 0 0 k t0 dl
      (by simpa [mainStart] using hsp)
  have hfail' : (mainStart oracle services).failed = true := by
    simpa [mainStart] using hfail
  refine ⟨hfail', by simpa [mainStart] using hlen, ?_⟩
  show (mainStop oracle extWait services).status = 1
  rw [mainStop_status_eq oracle extWait services, hfail']
  simp

/-- Claim C1, counterexample to the claim as stated: in the two-service run
where the start of the service at index 0 times out (so k = 0), the
services at indices 0 and 1 — that is, index k and beyond — nevertheless
each receive a stop call: the shutdown loop of `main` always runs over the
whole list.  (Both calls are success no-ops, since neither service was
marked running.) -/
theorem startFailure_stopClaim_counterexample :
    Event.startCall 0 0 3 false ∈ (mainRun oracleFalse 0 [New "A" 10, New "B" 1]).trace ∧
    stopIdxList (mainRun oracleFalse 0 [New "A" 10, New "B" 1]).trace = [1, 0] :=
  ⟨by decide, by decide⟩

/-- Claim C1 (amended): if the start call of the service at index k fails,
start calls were issued exactly to indices 0..k (the k-th failing, so no
service beyond k is ever started), every service of the list — including
index k and beyond — receives exactly one stop call, in the order
n-1, ..., 0 (hence services 0..k-1 in the order k-1, ..., 0; for services
never marked running the call is a success no-op), and the exit status
is 1. -/
theorem startFailure_rollback (oracle : Nat → Bool) (extWait : Nat)
    (services : List MockService) (k t0 dl : Nat)
    (h : Event.startCall k t0 dl false ∈ (mainRun oracle extWait services).trace) :
    startIdxList (mainRun oracle extWait services).trace = List.range (k + 1) ∧
    stopIdxList (mainRun oracle extWait services).trace =
      (List.range services.length).reverse ∧
    (mainRun oracle extWait services).exitCode = 1 := by
  obtain ⟨hfail, hlen, hexit⟩ := mainRun_startFail_core oracle extWait services k t0 dl h
  refine ⟨?_, stopIdxList_mainRun oracle extWait services, hexit⟩
  rw [startIdxList_mainRun, hlen, ← List.range_eq_range']

/-- Claim C1 (amended), concrete witness run: three services, the second
start times out. -/
theorem startFailure_rollback_witness :
    startIdxList (mainRun oracleFalse 0 [New "A" 0, New "B" 7, New "C" 1]).trace =
      List.range 2 ∧
    stopIdxList (mainRun oracleFalse 0 [New "A" 0, New "B" 7, New "C" 1]).trace =
      (List.range 3).reverse ∧
    (mainRun oracleFalse 0 [New "A" 0, New "B" 7, New "C" 1]).exitCode = 1 :=
  startFailure_rollback oracleFalse 0 [New "A" 0, New "B" 7, New "C" 1] 1 0 3 (by decide)

/-- Claim C2, counterexample to the claim as stated: a run whose only
service fails to start still executes the `<-sysExit` wait-for-signal
receive (the `awaitSignal` step appears in the trace), so the wait-for-
signal phase is not bypassed; it merely completes at once because `main`
sent SIGTERM to its own process before reaching the receive. -/
theorem rollback_await_counterexample :
    Event.startCall 0 0 3 false ∈ (mainRun oracleFalse 0 [New "A" 4]).trace ∧
    awaitList (mainRun oracleFalse 0 [New "A" 4]).trace = [true] :=
  ⟨by decide, by decide⟩

/-- Claim C2 (amended): in every run where some start call fails, the
program rolls back and exits with status 1, and the single wait-for-signal
receive it executes runs with the self-raised SIGTERM already pending
(`selfSignaled = true`), so the program never blocks waiting for an
external termination signal. -/
theorem startFailure_selfSignal_exit (oracle : Nat → Bool) (extWait : Nat)
    (services : List MockService) (k t0 dl : Nat)
    (h : Event.startCall k t0 dl false ∈ (mainRun oracle extWait services).trace) :
    (mainRun oracle extWait services).exitCode = 1 ∧
    awaitList (mainRun oracle extWait services).trace = [true] := by
  obtain ⟨hfail, -, hexit⟩ := mainRun_startFail_core oracle extWait services k t0 dl h
  refine ⟨hexit, ?_⟩
  rw [awaitList_mainRun, hfail]

/-- Claim C2 (amended), concrete witness run. -/
theorem startFailure_selfSignal_exit_witness :
    (mainRun oracleFalse 0 [New "A" 5]).exitCode = 1 ∧
    awaitList (mainRun oracleFalse 0 [New "A" 5]).trace = [true] :=
  startFailure_selfSignal_exit oracleFalse 0 [New "A" 5] 0 0 3 (by decide)

/-- Claim C3: in every run in which all start and stop calls succeed within
their deadlines, the services are started exactly in declared order,
stopped exactly in the reversed order, and the exit status is 0. -/
theorem allOk_order_and_exit (oracle : Nat → Bool) (extWait : Nat)
    (services : List MockService)
    (h : (mainRun oracle extWait services).trace.any isErrEvent = false) :
    startIdxList (mainRun oracle extWait services).trace = List.range services.length ∧
    stopIdxList (mainRun oracle extWait services).trace =
      (List.range services.length).reverse ∧
    (mainRun oracle extWait services).exitCode = 0 := by
  have h' := h
  simp only [mainRun, List.any_append, List.any_cons, isErrEvent,
    Bool.or_eq_false_iff] at h'
  obtain ⟨hsp, -, hso⟩ := h'
  have hexit := mainRun_exit_eq oracle extWait services
  rw [h] at hexit
  refine ⟨?_, stopIdxList_mainRun oracle extWait services, by simpa using hexit⟩
  have hfail : (mainStart oracle services).failed = false := by
    rw [mainStart_failed_eq]
    exact hsp
  have hlen : (mainStart oracle services).events.length = services.length := by
    have hl := startPhase_length_of_ok oracle (initStates services) 0 0 0
      (by simpa [mainStart] using hfail)
    simpa [mainStart, initStates] using hl
  rw [startIdxList_mainRun, hlen, ← List.range_eq_range']

/-- Claim C3, concrete witness run: two instantly-starting services, all
four calls succeed within their deadlines. -/
theorem allOk_order_and_exit_witness :
    startIdxList (mainRun oracleFalse 5 [New "A" 0, New "B" 0]).trace = List.range 2 ∧
    stopIdxList (mainRun oracleFalse 5 [New "A" 0, New "B" 0]).trace =
      (List.range 2).reverse ∧
    (mainRun oracleFalse 5 [New "A" 0, New "B" 0]).exitCode = 0 :=
  allOk_order_and_exit oracleFalse 5 [New "A" 0, New "B" 0] (by decide)

/-- Claim C4: if some stop call fails, every service of the list still
receives its stop call (the shutdown loop never short-circuits: it always
issues exactly one stop call per service, in reverse order) and the exit
status is 1. -/
theorem stopFailure_continue_exit (oracle : Nat → Bool) (extWait : Nat)
    (services : List MockService) (j t0 dl : Nat) (wasRun : Bool)
    (h : Event.stopCall j t0 dl wasRun false ∈ (mainRun oracle extWait services).trace) :
    stopIdxList (mainRun oracle extWait services).trace =
      (List.range services.length).reverse ∧
    (mainRun oracle extWait services).exitCode = 1 := by
  refine ⟨stopIdxList_mainRun oracle extWait services, ?_⟩
  have hany : (mainRun oracle extWait services).trace.any isErrEvent = true := by
    rw [List.any_eq_true]
    exact ⟨_, h, rfl⟩
  rw [mainRun_exit_eq, hany]
  simp

/-- Claim C4, concrete witness run: the stop of the second service exceeds
the 2-second deadline, the first service is still stopped, exit status 1. -/
theorem stopFailure_continue_exit_witness :
    stopIdxList (mainRun oracleFalse 0 [New "A" 0, New "B" 2]).trace =
      (List.range 2).reverse ∧
    (mainRun oracleFalse 0 [New "A" 0, New "B" 2]).exitCode = 1 :=
  stopFailure_continue_exit oracleFalse 0 [New "A" 0, New "B" 2] 1 2 4 true (by decide)

/-- Claim C5: the global status flag starts ok, is set to failed by any
start or stop failure, is never reset, and is read out as the exit code:
the run exits 1 exactly when some call failed, and exits 0 exactly when
zero errors occurred in both phases. -/
theorem globalStatus_monotone_exit (oracle : Nat → Bool) (extWait : Nat)
    (services : List MockService) :
    (mainRun oracle extWait services).exitCode =
      (if (mainRun oracle extWait services).trace.any isErrEvent then 1 else 0) ∧
    ((mainRun oracle extWait services).exitCode = 0 ↔
      (mainRun oracle extWait services).trace.any isErrEvent = false) := by
  refine ⟨mainRun_exit_eq oracle extWait services, ?_⟩
  rw [mainRun_exit_eq oracle extWait services]
  cases h : (mainRun oracle extWait services).trace.any isErrEvent <;> simp

/-- Claim C6: every start call carries a fresh deadline of the one
configured start duration (3 s) and every stop call a fresh deadline of the
separate configured stop duration (2 s), measured from the instant that
individual call begins. -/
theorem deadlines_fresh_per_call (oracle : Nat → Bool) (extWait : Nat)
    (services : List MockService) :
    (mainRun oracle extWait services).trace.all deadlineFresh = true := by
  simp only [mainRun, List.all_append, List.all_cons]
  have h1 : (mainStart oracle services).events.all deadlineFresh = true := by
    simp [mainStart, startPhase_fresh]
  have h2 : (mainStop oracle extWait services).events.all deadlineFresh = true := by
    simp [mainStop, stopGo_fresh]
  simp [h1, h2, deadlineFresh]

/-- Claim C7: a deadline-bounded start (stop) call returns success when the
underlying operation completes strictly before the deadline, and when the
deadline elapses strictly first it returns a timeout failure whose message
names the service, exactly at the deadline — even though the underlying
operation is still outstanding. -/
theorem boundedCall_deadline_semantics (ms : MockService) (t0 lim : Nat) (tie tp : Bool) :
    (ms.fakeDuration < lim →
      (ms.StartCall t0 lim tie).err = none ∧
      (ms.StartCall t0 lim tie).retAt = t0 + ms.fakeDuration) ∧
    (lim < ms.fakeDuration →
      (ms.StartCall t0 lim tie).err =
        some ("time limit exceeded while starting service " ++ ms.name) ∧
      (ms.StartCall t0 lim tie).retAt = t0 + lim) ∧
    (ms.status = true →
      (ms.fakeDuration + 1 < lim →
        (ms.StopCall none t0 lim tp tie).err = none ∧
        (ms.StopCall none t0 lim tp tie).retAt = t0 + (ms.fakeDuration + 1)) ∧
      (lim < ms.fakeDuration + 1 →
        (ms.StopCall none t0 lim tp tie).err =
          some ("time limit exceeded while stopping service " ++ ms.name) ∧
        (ms.StopCall none t0 lim tp tie).retAt = t0 + lim)) := by
  refine ⟨fun h => ?_, fun h => ?_, fun hs => ⟨fun h => ?_, fun h => ?_⟩⟩
  · simp [MockService.StartCall, race, h, startErrMsg]
  · have h1 : ¬ ms.fakeDuration < lim := by omega
    simp [MockService.StartCall, race, h, h1, startErrMsg]
  · simp [MockService.StopCall, hs, race, h, pendingFired, stopErrMsg]
  · have h1 : ¬ ms.fakeDuration + 1 < lim := by omega
    simp [MockService.StopCall, hs, race, h, h1, pendingFired, stopErrMsg]

/-- Claim C7, concrete witness calls: a 1 s start under a 3 s deadline
succeeds; a 5 s start under a 3 s deadline times out at second 3 with a
message naming the service; a running service whose stop sleeps 4 s times
out under the 2 s stop deadline. -/
theorem boundedCall_deadline_semantics_witness :
    ((New "F" 1).StartCall 0 3 false).err = none ∧
    ((New "W" 5).StartCall 0 3 false).err =
      some ("time limit exceeded while starting service " ++ "W") ∧
    ((New "W" 5).StartCall 0 3 false).retAt = 3 ∧
    (({ name := "S", fakeDuration := 3, status := true } : MockService).StopCall
        none 0 2 false false).err =
      some ("time limit exceeded while stopping service " ++ "S") := by
  refine ⟨?_, ?_, ?_, ?_⟩
  · exact ((boundedCall_deadline_semantics (New "F" 1) 0 3 false false).1 (by decide)).1
  · exact ((boundedCall_deadline_semantics (New "W" 5) 0 3 false false).2.1 (by decide)).1
  · exact ((boundedCall_deadline_semantics (New "W" 5) 0 3 false false).2.1 (by decide)).2
  · exact (((boundedCall_deadline_semantics
      ({ name := "S", fakeDuration := 3, status := true } : MockService) 0 2 false
      false).2.2 rfl).2 (by decide)).1

/-- Claim C8: calling stop on a service never marked running is a no-op
returning success immediately, and in no run does a stop call on a
not-running service fail — so such calls never set the global status to
failed. -/
theorem stopNotStarted_noop (ms : MockService) (t0 lim : Nat) (tp tie : Bool)
    (oracle : Nat → Bool) (extWait : Nat) (services : List MockService) (i u0 udl : Nat)
    (hs : ms.status = false) :
    ms.StopCall none t0 lim tp tie =
      { err := none, retAt := t0, wasRunning := false } ∧
    Event.stopCall i u0 udl false false ∉ (mainRun oracle extWait services).trace := by
  constructor
  · simp [MockService.StopCall, hs, pendingFired]
  · intro hmem
    have hso := stopCall_mem_mainStop hmem
    exact stopGo_noRun_ok oracle _ _ _ _ i u0 udl (by simpa [mainStop] using hso)

/-- Claim C8, concrete witness: stopping a freshly constructed (never
started) service is an immediate success no-op, and a failing not-running
stop call occurs in no event of a concrete run. -/
theorem stopNotStarted_noop_witness :
    (New "X" 1).StopCall none 7 2 false false =
      { err := none, retAt := 7, wasRunning := false } ∧
    Event.stopCall 0 0 2 false false ∉ (mainRun oracleFalse 0 [New "X" 9]).trace :=
  stopNotStarted_noop (New "X" 1) 7 2 false false oracleFalse 0 [New "X" 9] 0 0 2 rfl

/-- Claim C9: when a start call's deadline elapses first, the underlying
operation is not cancelled: the call returns the timeout error exactly at
the deadline, at that moment the service is not yet marked running, the
abandoned goroutine is still pending and will set the running flag at
`t0 + fakeDuration` — strictly after the call returned — and any status
read after that instant observes the service as running even though its
start had been reported failed. -/
theorem timeoutLeak_background_mutation (ms : MockService) (t0 lim t : Nat) (tie tp : Bool)
    (h : lim < ms.fakeDuration) :
    (ms.StartCall t0 lim tie).err = some (startErrMsg ms) ∧
    (ms.StartCall t0 lim tie).retAt = t0 + lim ∧
    (ms.StartCall t0 lim tie).svc.status = ms.status ∧
    (ms.StartCall t0 lim tie).pendingAt = some (t0 + ms.fakeDuration) ∧
    (ms.StartCall t0 lim tie).retAt < t0 + ms.fakeDuration ∧
    (t0 + ms.fakeDuration < t →
      pendingFired (ms.StartCall t0 lim tie).pendingAt t tp = true) := by
  have h1 : ¬ ms.fakeDuration < lim := by omega
  refine ⟨?_, ?_, ?_, ?_, ?_, fun ht => ?_⟩
  · simp [MockService.StartCall, race, h, h1]
  · simp [MockService.StartCall, race, h, h1]
  · simp [MockService.StartCall, race, h, h1]
  · simp [MockService.StartCall, race, h, h1]
  · simp [MockService.StartCall, race, h, h1]
  · simp [MockService.StartCall, race, h, h1, pendingFired, ht]

/-- Claim C9, concrete witness: a 5 s start under a 3 s deadline returns
the timeout error at second 3; the pending mutation lands at second 5 and
a status read at second 9 observes the service running. -/
theorem timeoutLeak_background_mutation_witness :
    ((New "W" 5).StartCall 0 3 false).err = some (startErrMsg (New "W" 5)) ∧
    ((New "W" 5).StartCall 0 3 false).retAt = 3 ∧
    ((New "W" 5).StartCall 0 3 false).pendingAt = some 5 ∧
    pendingFired ((New "W" 5).StartCall 0 3 false).pendingAt 9 false = true := by
  obtain ⟨h1, h2, h3, h4, h5, h6⟩ :=
    timeoutLeak_background_mutation (New "W" 5) 0 3 9 false false (by decide)
  exact ⟨h1, h2, h4, h6 (by decide)⟩

/-- Claim C10: with the configuration hard-coded in `main` (services A, B,
C with fake durations 1, 2, 1, a 2-second stop deadline, and each mock's
stop sleeping fakeDuration + 1 seconds), every run — for every tie oracle
and every external-signal arrival time — has the stop call of service B
(index 1) exceed its deadline, so the global status is set to failed and
the program always exits with status 1, never 0. -/
theorem concreteConfig_neverExitZero (oracle : Nat → Bool) (extWait : Nat) :
    (mainRun oracle extWait servicesMain).exitCode = 1 ∧
    1 ∈ stopErrIdxList (mainRun oracle extWait servicesMain).trace := by
  cases h4 : oracle 4 <;> cases h8 : oracle 8 <;>
    simp [mainRun, mainStart, mainStop, servicesMain, initStates, New, startPhase, stopGo,
      MockService.StartCall, MockService.StopCall, race, pendingFired,
      startTimeoutSec, stopTimeoutSec, h4, h8]
